import Mathlib

/- Verification of the Iris classification MLOps service.

   This file is a shallow embedding of the serving modules of the repository
   (api/models.py, api/prediction_service.py, api/logging_service.py,
   api/retraining.py, api/main.py) together with proofs of the behavioural
   properties stated in the specification.

   Modelling conventions:
   * Python floats are modelled as rationals.
   * Wall-clock readings (processing times, the current datetime) are passed
     to the embedded functions as explicit parameters.
   * The filesystem is modelled by an explicit file-state value per file.
   * A caught-and-suppressed Python exception is modelled by the branch the
     except-handler takes; a propagating exception by an Except result. -/

/-- The three fixed class names, in the order used by the prediction service
    (prediction_service.py, self.class_names). -/
def classNames : List String := ["setosa", "versicolor", "virginica"]

/-- Round half to even to an integer, as the Python builtin round resolves
    a tie (used by round(v, 2) in models.py). Written on the numerator and
    denominator directly: with f the floor of x and r the remainder, the
    fractional part of x is r / den, compared against one half. -/
def roundHalfEven (x : ℚ) : ℤ :=
  let f := Int.fdiv x.num x.den
  let r := x.num - f * (x.den : ℤ)
  if 2 * r < (x.den : ℤ) then f
  else if (x.den : ℤ) < 2 * r then f + 1
  else if f % 2 = 0 then f else f + 1

/-- Python round(v, 2): round to 2 decimal places. -/
def round2 (v : ℚ) : ℚ := mkRat (roundHalfEven (v * 100)) 100

/-- Round half to even fixes integers. -/
theorem roundHalfEven_intCast (n : ℤ) : roundHalfEven ((n : ℤ) : ℚ) = n := by
  unfold roundHalfEven
  simp [Rat.num_intCast, Rat.den_intCast, Int.fdiv_one]

/-- round2 fixes 0. -/
theorem round2_zero : round2 0 = 0 := by
  unfold round2
  rw [show ((0 : ℚ) * 100) = ((0 : ℤ) : ℚ) by norm_num, roundHalfEven_intCast]
  decide

/-- round2 fixes 10. -/
theorem round2_ten : round2 10 = 10 := by
  unfold round2
  rw [show ((10 : ℚ) * 100) = ((1000 : ℤ) : ℚ) by norm_num, roundHalfEven_intCast]
  decide

/-- models.py, PredictionRequest: each measurement field is declared with
    Field(ge=0.0, le=10.0); the pydantic range checks run before the
    validate_measurements field validator, which rejects negative values,
    rejects values above 15, and rounds the accepted value to 2 decimals.
    none models a 422 validation rejection. -/
def validate_measurements (v : ℚ) : Option ℚ :=
  if ¬ (0 ≤ v ∧ v ≤ 10) then none
  else if v < 0 then none
  else if 15 < v then none
  else some (round2 v)

/-- models.py, PredictionRequest: the four measurement fields. -/
structure PredictionRequest where
  sepal_length : ℚ
  sepal_width : ℚ
  petal_length : ℚ
  petal_width : ℚ
deriving DecidableEq

/-- Validation of a whole single-prediction request: every field passes
    validate_measurements, and the validated request holds the rounded
    values. -/
def PredictionRequest.validate (r : PredictionRequest) : Option PredictionRequest :=
  match validate_measurements r.sepal_length, validate_measurements r.sepal_width,
        validate_measurements r.petal_length, validate_measurements r.petal_width with
  | some a, some b, some c, some d => some ⟨a, b, c, d⟩
  | _, _, _, _ => none

/-- models.py, PredictionRequest.to_array: the fixed feature order. -/
def PredictionRequest.to_array (r : PredictionRequest) : List ℚ :=
  [r.sepal_length, r.sepal_width, r.petal_length, r.petal_width]

/-- main.py, health_check: status starts healthy; an unloaded model
    downgrades to degraded with issue "Model not loaded"; an unreachable
    database downgrades to degraded if the status is still healthy and to
    unhealthy otherwise, appending "Database not connected" to the issues
    (creating the issues list via setdefault when absent). Returns the
    status string and the optional issues list. -/
def health_check (model_loaded db_connected : Bool) : String × Option (List String) :=
  let st1 : String := if ¬ model_loaded then "degraded" else "healthy"
  let is1 : Option (List String) :=
    if ¬ model_loaded then some ["Model not loaded"] else none
  if ¬ db_connected then
    (if st1 = "healthy" then "degraded" else "unhealthy",
     some (is1.getD [] ++ ["Database not connected"]))
  else
    (st1, is1)

/-- Abstraction of a scikit-learn classifier as the prediction service uses
    it: a type name (type of the model), a label prediction per feature row,
    and optionally a class-probability vector per feature row (present
    exactly when the model has a predict_proba attribute). The vectorized
    sklearn calls model.predict and model.predict_proba act row-wise, so a
    matrix call is embedded as a map of the row function. -/
structure SkModel where
  typeName : String
  predictRow : List ℚ → String
  predictProbaRow : Option (List ℚ → List ℚ)

/-- prediction_service.py, PredictionService mutable state. -/
structure ServiceState where
  model : Option SkModel
  scaler : Option (List ℚ → List ℚ)
  model_version : String
  model_type : String
  model_loaded : Bool

/-- The state set by PredictionService.__init__. -/
def initServiceState : ServiceState :=
  { model := none, scaler := none, model_version := "unknown",
    model_type := "unknown", model_loaded := false }

/-- PredictionService.is_model_loaded. -/
def is_model_loaded (s : ServiceState) : Bool :=
  s.model_loaded && s.model.isSome

/-- Feature preprocessing in predict and predict_batch: apply the scaler
    when one is present, otherwise use the raw features (with a warning). -/
def scaleRow (s : ServiceState) (row : List ℚ) : List ℚ :=
  match s.scaler with
  | some sc => sc row
  | none => row

/-- The per-prediction result dictionary built by the prediction service.
    processing_time_ms is present for single predictions and absent from
    the per-row results of a batch. The timestamp field is wall-clock only
    and is not modelled. -/
structure PredictResult where
  prediction : String
  confidence : ℚ
  probabilities : List (String × ℚ)
  model_version : String
  processing_time_ms : Option ℚ

/-- The predict_proba branch of result formatting: the probability dict
    zips the three class names with the probability vector and confidence
    is the Python max of the vector. Python max raises on an empty vector,
    modelled as none (the service re-raises such an exception). -/
def probaRow (version : String) (tm : Option ℚ) (pred : String)
    (p : ℚ) (ps : List ℚ) : PredictResult :=
  { prediction := pred, confidence := ps.foldl max p,
    probabilities := List.zip classNames (p :: ps),
    model_version := version, processing_time_ms := tm }

/-- Formatting of one predict_proba result, with the empty-vector case. -/
def probaResult (version : String) (tm : Option ℚ) (pred : String)
    (probs : List ℚ) : Option PredictResult :=
  match probs with
  | [] => none
  | p :: ps => some (probaRow version tm pred p ps)

/-- The fallback branch for models without predict_proba: a one-hot
    probability dict over the class names and confidence 1.0. -/
def oneHotResult (version : String) (tm : Option ℚ) (pred : String) : PredictResult :=
  { prediction := pred, confidence := 1,
    probabilities := classNames.map (fun c => (c, if c = pred then (1 : ℚ) else 0)),
    model_version := version, processing_time_ms := tm }

/-- prediction_service.py, PredictionService.predict: guard on the loaded
    state, scale the features, predict a label, then format probabilities
    through the predict_proba branch or the one-hot fallback. The elapsed
    wall-clock milliseconds are passed in. An internal exception is
    re-raised as a prediction-failure error. -/
def PredictionService.predict (s : ServiceState) (features : List ℚ)
    (elapsedMs : ℚ) : Except String PredictResult :=
  match s.model, s.model_loaded with
  | some m, true =>
      let fs := scaleRow s features
      let pred := m.predictRow fs
      match m.predictProbaRow with
      | some proba =>
          match probaResult s.model_version (some elapsedMs) pred (proba fs) with
          | some r => .ok r
          | none => .error "Prediction failed: max arg is an empty sequence"
      | none => .ok (oneHotResult s.model_version (some elapsedMs) pred)
  | _, _ => .error "Model not loaded. Please load model first."

/-- Claim C4: for each measurement field, validation accepts the exact
    boundary values 0.0 and 10.0, rejects any value at -0.01 or below and
    any value above 15.0, and every accepted value is rounded to 2 decimal
    places in the validated request. -/
theorem C4_boundary_validation :
    (validate_measurements 0 = some 0 ∧ validate_measurements 10 = some 10) ∧
    (∀ v : ℚ, v ≤ -1/100 → validate_measurements v = none) ∧
    (∀ v : ℚ, 15 < v → validate_measurements v = none) ∧
    (∀ v w : ℚ, validate_measurements v = some w → w = round2 v) := by
  refine ⟨⟨?_, ?_⟩, ?_, ?_, ?_⟩
  · norm_num [validate_measurements, round2_zero]
  · norm_num [validate_measurements, round2_ten]
  · intro v hv
    have h0 : ¬ (0 ≤ v ∧ v ≤ 10) := by
      rintro ⟨h, -⟩
      linarith
    simp [validate_measurements, h0]
  · intro v hv
    have h0 : ¬ (0 ≤ v ∧ v ≤ 10) := by
      rintro ⟨-, h⟩
      linarith
    simp [validate_measurements, h0]
  · intro v w h
    unfold validate_measurements at h
    split at h
    · exact absurd h (by simp)
    · split at h
      · exact absurd h (by simp)
      · split at h
        · exact absurd h (by simp)
        · exact (Option.some_injective _ h).symm

/-- Witness for C4 at concrete inputs: -0.01 is rejected and 15.1 is
    rejected, by the main theorem. -/
theorem C4_witness :
    validate_measurements (-1/100) = none ∧ validate_measurements (151/10) = none :=
  ⟨C4_boundary_validation.2.1 (-1/100) (by norm_num),
   C4_boundary_validation.2.2.1 (151/10) (by norm_num)⟩

/-- Claim C7: health status composition — model unloaded and database
    connected gives degraded with exactly one issue; model loaded and
    database disconnected gives degraded with the appended issue; both
    failing gives unhealthy with two issues; both healthy gives healthy
    with no issues. -/
theorem C7_health_composition :
    health_check false true = ("degraded", some ["Model not loaded"]) ∧
    health_check true false = ("degraded", some ["Database not connected"]) ∧
    health_check false false =
      ("unhealthy", some ["Model not loaded", "Database not connected"]) ∧
    health_check true true = ("healthy", none) := by
  refine ⟨rfl, rfl, rfl, rfl⟩

/-- Claim C1: for every accepted single prediction served by
    PredictionService.predict with a classifier meeting the scikit-learn
    contract (a 3-entry probability vector with entries in the unit
    interval summing to 1 within 0.01 when predict_proba exists, a
    predicted label among the class names otherwise), the returned
    probability dict has exactly the 3 keys setosa, versicolor, virginica
    in order, each value in the unit interval, the values summing to 1
    within 0.01, and the confidence equal to the maximum of the three
    values, in both the predict_proba branch and the one-hot fallback. -/
theorem C1_probability_invariant
    (s : ServiceState) (m : SkModel) (features : List ℚ) (elapsedMs : ℚ)
    (res : PredictResult)
    (hm : s.model = some m)
    (hproba : ∀ f, m.predictProbaRow = some f →
      (f (scaleRow s features)).length = 3 ∧
      (∀ p ∈ f (scaleRow s features), 0 ≤ p ∧ p ≤ 1) ∧
      |(f (scaleRow s features)).sum - 1| ≤ 1/100)
    (honehot : m.predictProbaRow = none →
      m.predictRow (scaleRow s features) ∈ classNames)
    (hok : PredictionService.predict s features elapsedMs = .ok res) :
    res.probabilities.map Prod.fst = classNames ∧
    (∀ p ∈ res.probabilities.map Prod.snd, 0 ≤ p ∧ p ≤ 1) ∧
    |(res.probabilities.map Prod.snd).sum - 1| ≤ 1/100 ∧
    res.confidence ∈ res.probabilities.map Prod.snd ∧
    ∀ p ∈ res.probabilities.map Prod.snd, p ≤ res.confidence := by
  cases hml : s.model_loaded with
  | false =>
      rw [PredictionService.predict, hm, hml] at hok
      exact absurd hok (by simp)
  | true =>
      rw [PredictionService.predict, hm, hml] at hok
      cases hpp : m.predictProbaRow with
      | none =>
          simp only [hpp] at hok
          have hres : res = oneHotResult s.model_version (some elapsedMs)
              (m.predictRow (scaleRow s features)) := by
            cases hok
            rfl
          subst hres
          have hpred := honehot hpp
          simp only [classNames, List.mem_cons, List.not_mem_nil, or_false] at hpred
          rcases hpred with h | h | h <;>
            · rw [oneHotResult, h]
              refine ⟨by simp [classNames], ?_, ?_, ?_, ?_⟩ <;>
                simp [classNames]
      | some f =>
          simp only [hpp] at hok
          obtain ⟨hlen, hbounds, hsum⟩ := hproba f hpp
          obtain ⟨p1, p2, p3, hps⟩ := List.length_eq_three.mp hlen
          rw [hps] at hok hbounds hsum
          simp only [probaResult, probaRow, Except.ok.injEq] at hok
          subst hok
          have h1 : (0 ≤ p1 ∧ p1 ≤ 1) := hbounds p1 (by simp)
          have h2 : (0 ≤ p2 ∧ p2 ≤ 1) := hbounds p2 (by simp)
          have h3 : (0 ≤ p3 ∧ p3 ≤ 1) := hbounds p3 (by simp)
          refine ⟨by simp [classNames], ?_, ?_, ?_, ?_⟩
          · intro p hp
            simp [classNames] at hp
            rcases hp with h | h | h <;> subst h <;> assumption
          · simp only [classNames] at hsum ⊢
            simpa using hsum
          · show max (max p1 p2) p3 ∈ _
            simp only [classNames]
            rcases max_choice (max p1 p2) p3 with h | h <;> rw [h]
            · rcases max_choice p1 p2 with h' | h' <;> rw [h'] <;> simp
            · simp
          · intro p hp
            simp [classNames] at hp
            show p ≤ max (max p1 p2) p3
            rcases hp with h | h | h <;> rw [h]
            · exact le_trans (le_max_left p1 p2) (le_max_left _ p3)
            · exact le_trans (le_max_right p1 p2) (le_max_left _ p3)
            · exact le_max_right _ p3

/-- A concrete classifier with a predict_proba vector, for the C1 witness. -/
def exC1Model : SkModel :=
  { typeName := "LogisticRegression",
    predictRow := fun _ => "setosa",
    predictProbaRow := some (fun _ => [7/10, 1/5, 1/10]) }

/-- A concrete loaded service state, for the C1 witness. -/
def exC1State : ServiceState :=
  { model := some exC1Model, scaler := none, model_version := "local-1.0.0",
    model_type := "LogisticRegression", model_loaded := true }

/-- The result the service returns on the C1 witness input. -/
def exC1Res : PredictResult :=
  { prediction := "setosa",
    confidence := [(1 : ℚ)/5, 1/10].foldl max (7/10),
    probabilities := List.zip classNames [(7 : ℚ)/10, 1/5, 1/10],
    model_version := "local-1.0.0",
    processing_time_ms := some 2 }

/-- Witness for C1 at a concrete loaded model and input row. -/
theorem C1_witness :
    exC1Res.probabilities.map Prod.fst = classNames ∧
    (∀ p ∈ exC1Res.probabilities.map Prod.snd, 0 ≤ p ∧ p ≤ 1) ∧
    |(exC1Res.probabilities.map Prod.snd).sum - 1| ≤ 1/100 ∧
    exC1Res.confidence ∈ exC1Res.probabilities.map Prod.snd ∧
    ∀ p ∈ exC1Res.probabilities.map Prod.snd, p ≤ exC1Res.confidence :=
  C1_probability_invariant exC1State exC1Model [5, 3, 1, 1] 2 exC1Res rfl
    (by
      intro f hf
      simp only [exC1State, exC1Model, Option.some.injEq] at hf
      subst hf
      refine ⟨rfl, ?_, ?_⟩
      · intro p hp
        simp at hp
        rcases hp with h | h | h <;> subst h <;> norm_num
      · simp
        norm_num)
    (by intro h; simp [exC1State, exC1Model] at h)
    rfl

/-- Element-wise validation of the samples list, as pydantic validates each
    entry of a List field: all samples must validate. -/
def validateSamples : List PredictionRequest → Option (List PredictionRequest)
  | [] => some []
  | r :: rest =>
      match r.validate, validateSamples rest with
      | some v, some vs => some (v :: vs)
      | _, _ => none

/-- models.py, BatchPredictionRequest: the samples field is declared with
    min_length 1 and max_length 100, every entry is validated by the
    PredictionRequest rules, and the validate_batch_size field validator
    rejects more than 100 entries once more. none models a 422. -/
def BatchPredictionRequest.validate (samples : List PredictionRequest) :
    Option (List PredictionRequest) :=
  if samples.length < 1 then none
  else if 100 < samples.length then none
  else
    match validateSamples samples with
    | none => none
    | some vs => if 100 < vs.length then none else some vs

/-- The batch response dictionary of predict_batch: the per-row results,
    batch_size as the length of the prediction vector, and the elapsed
    wall-clock total in milliseconds. -/
structure BatchResult where
  predictions : List PredictResult
  batch_size : ℕ
  total_processing_time_ms : ℚ

/-- The result-formatting loop of predict_batch in the predict_proba
    branch: one probaResult per row, in row order. -/
def batchRows (version : String) (predR : List ℚ → String)
    (proba : List ℚ → List ℚ) : List (List ℚ) → Option (List PredictResult)
  | [] => some []
  | row :: rest =>
      match probaResult version none (predR row) (proba row),
            batchRows version predR proba rest with
      | some r, some rs => some (r :: rs)
      | _, _ => none

/-- prediction_service.py, PredictionService.predict_batch: guard on the
    loaded state, scale all rows, predict labels row-wise, then format each
    row through the predict_proba branch or the one-hot fallback. -/
def PredictionService.predict_batch (s : ServiceState)
    (featuresBatch : List (List ℚ)) (elapsedMs : ℚ) : Except String BatchResult :=
  match s.model, s.model_loaded with
  | some m, true =>
      let scaled := featuresBatch.map (scaleRow s)
      match m.predictProbaRow with
      | some proba =>
          match batchRows s.model_version m.predictRow proba scaled with
          | some rs => .ok ⟨rs, rs.length, elapsedMs⟩
          | none => .error "Batch prediction failed: max arg is an empty sequence"
      | none =>
          .ok ⟨scaled.map (fun row => oneHotResult s.model_version none (m.predictRow row)),
               scaled.length, elapsedMs⟩
  | _, _ => .error "Model not loaded. Please load model first."

/-- If every sample validates, the samples list validates. -/
theorem validateSamples_isSome (l : List PredictionRequest)
    (h : ∀ x ∈ l, (PredictionRequest.validate x).isSome) :
    (validateSamples l).isSome := by
  induction l with
  | nil => rfl
  | cons r rest ih =>
      have hr := h r (List.mem_cons_self _ _)
      have hrest := ih (fun x hx => h x (List.mem_cons_of_mem _ hx))
      rw [validateSamples]
      obtain ⟨v, hv⟩ := Option.isSome_iff_exists.mp hr
      obtain ⟨vs, hvs⟩ := Option.isSome_iff_exists.mp hrest
      rw [hv, hvs]
      rfl

/-- Validation of the samples list preserves its length. -/
theorem validateSamples_length (l vs : List PredictionRequest)
    (h : validateSamples l = some vs) : vs.length = l.length := by
  induction l generalizing vs with
  | nil =>
      rw [validateSamples] at h
      cases h
      rfl
  | cons r rest ih =>
      rw [validateSamples] at h
      rcases hr : r.validate with _ | v <;> rw [hr] at h
      · exact absurd h (by simp)
      · rcases hrest : validateSamples rest with _ | ws <;> rw [hrest] at h
        · exact absurd h (by simp)
        · cases h
          simp [ih ws hrest]

/-- batchRows succeeds on rows whose probability vectors are nonempty, and
    produces one result per row, in row order, predicting with the label
    function. -/
theorem batchRows_spec (ver : String) (predR : List ℚ → String)
    (proba : List ℚ → List ℚ) (rows : List (List ℚ))
    (h : ∀ row ∈ rows, proba row ≠ []) :
    ∃ rs, batchRows ver predR proba rows = some rs ∧
      rs.length = rows.length ∧
      rs.map (fun r => r.prediction) = rows.map predR := by
  induction rows with
  | nil => exact ⟨[], rfl, rfl, rfl⟩
  | cons row rest ih =>
      obtain ⟨rs, hrs, hlen, hmap⟩ := ih (fun r hr => h r (List.mem_cons_of_mem _ hr))
      have hne := h row (List.mem_cons_self _ _)
      cases hp : proba row with
      | nil => exact absurd hp hne
      | cons p ps =>
          refine ⟨probaRow ver none (predR row) p ps :: rs, ?_, by simp [hlen], ?_⟩
          · rw [batchRows, hp, hrs, probaResult]
          · simp [probaRow, hmap]

/-- Claim C5: batch validation rejects an empty samples list and any list of
    more than 100 entries, accepts exactly 100 valid entries, and for every
    accepted batch of size N served by predict_batch (with a classifier
    meeting the scikit-learn contract of nonempty probability vectors), the
    batch result has exactly N prediction entries, in the order of the
    input samples. -/
theorem C5_batch_invariant :
    (BatchPredictionRequest.validate [] = none) ∧
    (∀ samples : List PredictionRequest, 100 < samples.length →
      BatchPredictionRequest.validate samples = none) ∧
    (∀ samples : List PredictionRequest, samples.length = 100 →
      (∀ x ∈ samples, (PredictionRequest.validate x).isSome) →
      (BatchPredictionRequest.validate samples).isSome) ∧
    (∀ (s : ServiceState) (m : SkModel) (samples vs : List PredictionRequest)
        (elapsedMs : ℚ) (res : BatchResult),
      s.model = some m → s.model_loaded = true →
      (∀ f, m.predictProbaRow = some f → ∀ row, f row ≠ []) →
      BatchPredictionRequest.validate samples = some vs →
      PredictionService.predict_batch s (vs.map PredictionRequest.to_array) elapsedMs
        = .ok res →
      res.predictions.length = vs.length ∧
      res.predictions.map (fun r => r.prediction)
        = vs.map (fun v => m.predictRow (scaleRow s v.to_array))) := by
  refine ⟨rfl, ?_, ?_, ?_⟩
  · intro samples hlen
    have h1 : ¬ samples.length < 1 := by omega
    simp [BatchPredictionRequest.validate, h1, hlen]
  · intro samples h100 hall
    have h1 : ¬ samples.length < 1 := by omega
    have h2 : ¬ 100 < samples.length := by omega
    obtain ⟨vs, hvs⟩ := Option.isSome_iff_exists.mp (validateSamples_isSome samples hall)
    have hlen := validateSamples_length samples vs hvs
    have h3 : ¬ 100 < vs.length := by omega
    simp [BatchPredictionRequest.validate, h1, h2, hvs, h3]
  · intro s m samples vs elapsedMs res hm hml hcontract hval hok
    rw [PredictionService.predict_batch, hm, hml] at hok
    cases hpp : m.predictProbaRow with
    | some proba =>
        simp only [hpp] at hok
        obtain ⟨rs, hrs, hlen, hmap⟩ := batchRows_spec s.model_version m.predictRow proba
          ((vs.map PredictionRequest.to_array).map (scaleRow s))
          (fun row _ => hcontract proba hpp row)
        rw [hrs] at hok
        simp only [Except.ok.injEq] at hok
        subst hok
        constructor
        · simpa using hlen
        · rw [hmap]
          simp [Function.comp]
    | none =>
        simp only [hpp] at hok
        simp only [Except.ok.injEq] at hok
        subst hok
        constructor
        · simp
        · simp [oneHotResult, Function.comp]

/-- Witness for C5: a batch of exactly 100 copies of a valid sample is
    accepted. -/
theorem C5_witness :
    (BatchPredictionRequest.validate (List.replicate 100 ⟨5, 3, 1, 1⟩)).isSome :=
  C5_batch_invariant.2.2.1 (List.replicate 100 ⟨5, 3, 1, 1⟩) (by simp)
    (by
      intro x hx
      rw [List.eq_of_mem_replicate hx]
      norm_num [PredictionRequest.validate, validate_measurements])

/-- config.py settings consumed by the logging path: whether prediction
    logging is enabled. -/
structure LogSettings where
  log_predictions : Bool

/-- One row of the prediction_logs table (logging_service.py DDL):
    request_data is the logged request JSON (none models the empty object
    used for an out-of-range batch index); batch_size has DDL default 1. -/
structure PredictionLogRow where
  request_data : Option PredictionRequest
  prediction : String
  probabilities : List (String × ℚ)
  confidence : ℚ
  model_version : String
  processing_time_ms : ℚ
  batch_size : ℕ

/-- logging_service.py, LoggingService.log_prediction: a no-op when
    prediction logging is disabled; otherwise insert one row built from the
    result dict with the documented defaults. An insert failure is caught
    and suppressed, leaving the table unchanged: writeOk says whether the
    underlying database write succeeded. -/
def log_prediction (stg : LogSettings) (writeOk : Bool)
    (table : List PredictionLogRow) (req : PredictionRequest)
    (res : PredictResult) : List PredictionLogRow :=
  if ¬ stg.log_predictions then table
  else if writeOk then
    table ++ [{ request_data := some req, prediction := res.prediction,
                probabilities := res.probabilities, confidence := res.confidence,
                model_version := res.model_version,
                processing_time_ms := res.processing_time_ms.getD 0,
                batch_size := 1 }]
  else table

/-- logging_service.py, LoggingService.log_batch_prediction: a no-op when
    prediction logging is disabled; otherwise insert one row per entry of
    the predictions list, correlating the request payload by position
    (empty object when the index is out of range), each row carrying the
    total batch time divided by the predictions count and the declared
    batch_size. Failures suppressed as for log_prediction. -/
def log_batch_prediction (stg : LogSettings) (writeOk : Bool)
    (table : List PredictionLogRow) (request_data : List PredictionRequest)
    (batch : BatchResult) : List PredictionLogRow :=
  if ¬ stg.log_predictions then table
  else if writeOk then
    table ++ batch.predictions.enum.map (fun ir =>
      { request_data := request_data.get? ir.1,
        prediction := ir.2.prediction,
        probabilities := ir.2.probabilities,
        confidence := ir.2.confidence,
        model_version := ir.2.model_version,
        processing_time_ms :=
          batch.total_processing_time_ms / (batch.predictions.length : ℚ),
        batch_size := batch.batch_size })
  else table

/-- Claim C6: with prediction logging disabled, any number of
    log_prediction calls leave the prediction_logs table empty; with it
    enabled and the database writes succeeding, N calls insert exactly N
    rows, and one log_batch_prediction call inserts one row per entry of
    the predictions list, each row carrying the batch total time divided by
    the predictions count and the declared batch_size. -/
theorem C6_logging_isolation :
    (∀ (stg : LogSettings), stg.log_predictions = false →
      ∀ (calls : List (PredictionRequest × PredictResult)) (wo : Bool),
        calls.foldl (fun t c => log_prediction stg wo t c.1 c.2) [] = []) ∧
    (∀ (stg : LogSettings), stg.log_predictions = true →
      ∀ (calls : List (PredictionRequest × PredictResult)),
        (calls.foldl (fun t c => log_prediction stg true t c.1 c.2) []).length
          = calls.length) ∧
    (∀ (stg : LogSettings), stg.log_predictions = true →
      ∀ (table : List PredictionLogRow) (reqs : List PredictionRequest)
        (batch : BatchResult),
        (log_batch_prediction stg true table reqs batch).length
          = table.length + batch.predictions.length ∧
        ∀ row ∈ (log_batch_prediction stg true table reqs batch).drop table.length,
          row.processing_time_ms
            = batch.total_processing_time_ms / (batch.predictions.length : ℚ) ∧
          row.batch_size = batch.batch_size) := by
  refine ⟨?_, ?_, ?_⟩
  · intro stg hdis calls wo
    have key : ∀ t, calls.foldl (fun t c => log_prediction stg wo t c.1 c.2) t = t := by
      induction calls with
      | nil => intro t; rfl
      | cons c rest ih =>
          intro t
          rw [List.foldl_cons]
          rw [show log_prediction stg wo t c.1 c.2 = t by simp [log_prediction, hdis]]
          exact ih t
    exact key []
  · intro stg hen calls
    have key : ∀ t : List PredictionLogRow,
        (calls.foldl (fun t c => log_prediction stg true t c.1 c.2) t).length
          = t.length + calls.length := by
      induction calls with
      | nil => intro t; simp
      | cons c rest ih =>
          intro t
          rw [List.foldl_cons, ih]
          simp [log_prediction, hen]
          omega
    simpa using key []
  · intro stg hen table reqs batch
    constructor
    · simp [log_batch_prediction, hen]
    · intro row hrow
      rw [show log_batch_prediction stg true table reqs batch
            = table ++ batch.predictions.enum.map (fun ir =>
              { request_data := reqs.get? ir.1,
                prediction := ir.2.prediction,
                probabilities := ir.2.probabilities,
                confidence := ir.2.confidence,
                model_version := ir.2.model_version,
                processing_time_ms :=
                  batch.total_processing_time_ms / (batch.predictions.length : ℚ),
                batch_size := batch.batch_size }) by simp [log_batch_prediction, hen],
          List.drop_left] at hrow
      obtain ⟨ir, _, rfl⟩ := List.mem_map.mp hrow
      exact ⟨rfl, rfl⟩

/-- Witness for C6: one enabled call inserts exactly one row. -/
theorem C6_witness :
    (([((⟨5, 3, 1, 1⟩ : PredictionRequest),
        oneHotResult "local-1.0.0" none "setosa")] :
          List (PredictionRequest × PredictResult)).foldl
      (fun t c => log_prediction ⟨true⟩ true t c.1 c.2) []).length = 1 :=
  C6_logging_isolation.2.1 ⟨true⟩ rfl
    [(⟨5, 3, 1, 1⟩, oneHotResult "local-1.0.0" none "setosa")]

/-- The in-process observability state the predict endpoint touches: the
    prediction records of the Metrics Collector, its api-error records, and
    the prediction_logs table of the Logging Service. -/
structure AppState where
  metricsPredictions : List (String × String × ℚ × ℚ)
  apiErrors : List (String × String)
  logs : List PredictionLogRow

/-- The observable effects of one run of the predict endpoint, in program
    order. -/
inductive EndpointEvent where
  | metricRecorded
  | logAttempted (ok : Bool)
  | apiErrorRecorded
deriving DecidableEq

/-- main.py, predict endpoint after the model-availability guard: on a
    successful prediction result, first record the prediction metric
    (model version, predicted class, confidence, duration), then attempt
    the best-effort log write through log_prediction, which suppresses its
    own failures; on a prediction failure, record an api error and
    translate to a 500. Returns the new state and the effect order. -/
def predict_endpoint (stg : LogSettings) (st : AppState)
    (req : PredictionRequest) (outcome : Except String PredictResult)
    (logWriteOk : Bool) : AppState × List EndpointEvent :=
  match outcome with
  | .error _ =>
      ({ st with apiErrors := st.apiErrors ++ [("/predict", "prediction_error")] },
       [.apiErrorRecorded])
  | .ok res =>
      let st1 := { st with metricsPredictions := st.metricsPredictions ++
        [(res.model_version, res.prediction, res.confidence,
          res.processing_time_ms.getD 0)] }
      let st2 := { st1 with logs := log_prediction stg logWriteOk st1.logs req res }
      (st2, [.metricRecorded, .logAttempted logWriteOk])

/-- Claim C9: within one successful prediction request, the metric is
    recorded before the log write is attempted; a suppressed log-write
    failure never removes the already-recorded metric (the metric state is
    the same whether the write succeeded or failed); and the log table can
    only lag the metric records, never lead them. -/
theorem C9_metrics_before_logs
    (stg : LogSettings) (st : AppState) (req : PredictionRequest)
    (res : PredictResult) (logWriteOk : Bool) :
    (predict_endpoint stg st req (.ok res) logWriteOk).1.metricsPredictions
      = st.metricsPredictions ++ [(res.model_version, res.prediction,
          res.confidence, res.processing_time_ms.getD 0)] ∧
    (predict_endpoint stg st req (.ok res) logWriteOk).2.indexOf .metricRecorded
      < (predict_endpoint stg st req (.ok res) logWriteOk).2.indexOf
          (.logAttempted logWriteOk) ∧
    (predict_endpoint stg st req (.ok res) false).1.metricsPredictions
      = (predict_endpoint stg st req (.ok res) true).1.metricsPredictions ∧
    (predict_endpoint stg st req (.ok res) logWriteOk).1.logs.length - st.logs.length
      ≤ (predict_endpoint stg st req (.ok res) logWriteOk).1.metricsPredictions.length
          - st.metricsPredictions.length := by
  refine ⟨rfl, ?_, rfl, ?_⟩
  · cases logWriteOk <;>
      · simp only [predict_endpoint]
        decide
  · rcases stg with ⟨lp⟩
    cases lp <;> cases logWriteOk <;>
      simp [predict_endpoint, log_prediction]

/-- config.py settings consumed by the model-loading path. -/
structure LoadSettings where
  use_mlflow_registry : Bool

/-- State of a file on disk, as the loading code can observe it: absent
    (os.path.exists false), present but failing to deserialize (joblib or
    parse raises, caught by the surrounding handler), or valid with a
    payload. -/
inductive FileState (α : Type) where
  | absent
  | corrupt
  | valid (a : α)

/-- The local artifact files the prediction service reads. -/
structure LocalEnv where
  modelFile : FileState SkModel
  scalerFile : FileState (List ℚ → List ℚ)

/-- prediction_service.py, PredictionService.__init__: the MLflow client is
    constructed only when the mlflow import succeeded, the settings prefer
    the registry, and the client construction itself did not fail (a
    construction failure is caught and logged). -/
def mkMlflowClient (mlflowAvailable : Bool) (stg : LoadSettings)
    (clientInitOk : Bool) : Option Unit :=
  if mlflowAvailable && stg.use_mlflow_registry && clientInitOk then some () else none

/-- prediction_service.py, PredictionService._load_scaler_from_local:
    a valid scaler file sets the scaler; an absent file or a load failure
    (caught) leaves the scaler as None. -/
def load_scaler_from_local (env : LocalEnv) (st : ServiceState) : ServiceState :=
  match env.scalerFile with
  | .valid sc => { st with scaler := some sc }
  | .absent => { st with scaler := none }
  | .corrupt => { st with scaler := none }

/-- prediction_service.py, PredictionService._load_from_local_files: fail
    if the model file is absent (or its load raises, caught by the handler);
    otherwise set the model, load the scaler, and mark the state Loaded with
    version local-1.0.0 and the model type name. -/
def load_from_local_files (env : LocalEnv) (st : ServiceState) : Bool × ServiceState :=
  match env.modelFile with
  | .absent => (false, st)
  | .corrupt => (false, st)
  | .valid m =>
      let st1 := load_scaler_from_local env { st with model := some m }
      let st2 := { st1 with model_version := "local-1.0.0", model_type := m.typeName, model_loaded := true }
      (true, st2)

/-- prediction_service.py, PredictionService.load_model: try the MLflow
    registry first when a client exists and the settings prefer it, falling
    back to local files when the registry load reports failure; otherwise
    load from local files directly. The registry step itself talks to the
    external MLflow service and is modelled abstractly as a state
    transformer returning its success flag. load_model returns its success
    flag and never raises (the body is wrapped in a try/except returning
    False). -/
def load_model (mlflowAvailable clientInitOk : Bool) (stg : LoadSettings)
    (registryStep : ServiceState → Bool × ServiceState) (env : LocalEnv)
    (st : ServiceState) : Bool × ServiceState :=
  if (mkMlflowClient mlflowAvailable stg clientInitOk).isSome
      && stg.use_mlflow_registry then
    match registryStep st with
    | (true, st1) => (true, st1)
    | (false, st1) => load_from_local_files env st1
  else load_from_local_files env st

/-- Claim C8: with use_mlflow_registry false and valid local model and
    scaler files, load_model returns success, is_model_loaded becomes true
    and model_version is local-1.0.0; with an absent local model file,
    load_model returns failure and is_model_loaded stays false. -/
theorem C8_load_fallback
    (avail cio : Bool) (stg : LoadSettings)
    (registryStep : ServiceState → Bool × ServiceState) (env : LocalEnv)
    (hreg : stg.use_mlflow_registry = false) :
    (∀ m sc, env.modelFile = .valid m → env.scalerFile = .valid sc →
      (load_model avail cio stg registryStep env initServiceState).1 = true ∧
      is_model_loaded (load_model avail cio stg registryStep env initServiceState).2
        = true ∧
      (load_model avail cio stg registryStep env initServiceState).2.model_version
        = "local-1.0.0") ∧
    (env.modelFile = .absent →
      (load_model avail cio stg registryStep env initServiceState).1 = false ∧
      is_model_loaded (load_model avail cio stg registryStep env initServiceState).2
        = false) := by
  constructor
  · intro m sc hm hsc
    simp [load_model, mkMlflowClient, hreg, load_from_local_files, hm,
      load_scaler_from_local, hsc, is_model_loaded]
  · intro hm
    simp [load_model, mkMlflowClient, hreg, load_from_local_files, hm,
      is_model_loaded, initServiceState]

/-- A concrete classifier for the C8 witness. -/
def exC8Model : SkModel :=
  { typeName := "LogisticRegression",
    predictRow := fun _ => "setosa",
    predictProbaRow := none }

/-- Witness for C8: valid local files load successfully with the local
    version string. -/
theorem C8_witness :
    (load_model false false ⟨false⟩ (fun st => (false, st))
      ⟨.valid exC8Model, .valid (fun r => r)⟩ initServiceState).1 = true ∧
    is_model_loaded (load_model false false ⟨false⟩ (fun st => (false, st))
      ⟨.valid exC8Model, .valid (fun r => r)⟩ initServiceState).2 = true ∧
    (load_model false false ⟨false⟩ (fun st => (false, st))
      ⟨.valid exC8Model, .valid (fun r => r)⟩ initServiceState).2.model_version
      = "local-1.0.0" :=
  (C8_load_fallback false false ⟨false⟩ (fun st => (false, st))
      ⟨.valid exC8Model, .valid (fun r => r)⟩ rfl).1
    exC8Model (fun r => r) rfl rfl

/-- main.py, lifespan startup: construct the settings and the two services
    (modelled as always succeeding; they perform no fallible work), call
    load_model without inspecting its boolean result, then initialize the
    database, which re-raises its failures; a raised exception aborts
    startup. The metrics update that follows catches its own errors. The
    process serves traffic exactly when this returns ok. -/
def lifespan_startup (mlflowAvailable clientInitOk : Bool) (stg : LoadSettings)
    (registryStep : ServiceState → Bool × ServiceState) (env : LocalEnv)
    (dbInitOk : Bool) : Except String ServiceState :=
  let pst := (load_model mlflowAvailable clientInitOk stg registryStep env
    initServiceState).2
  if dbInitOk then .ok pst else .error "Failed to initialize database"

/-- Counterexample to claim C2 as stated: with the registry disabled, the
    local model file absent and the database healthy, load_model reports
    failure yet lifespan startup completes and the process begins serving
    traffic — a model-load failure is not fatal to startup. -/
theorem C2_counterexample :
    (load_model false false ⟨false⟩ (fun st => (false, st))
      ⟨.absent, .absent⟩ initServiceState).1 = false ∧
    (lifespan_startup false false ⟨false⟩ (fun st => (false, st))
      ⟨.absent, .absent⟩ true).isOk = true :=
  ⟨rfl, rfl⟩

/-- Claim C2 amended: startup is aborted exactly by a database
    initialization failure; load_model never raises into the lifespan (it
    returns a boolean that the startup sequence ignores), so a model-load
    failure does not prevent the process from serving traffic. -/
theorem C2_startup_not_fatal
    (mlflowAvailable clientInitOk : Bool) (stg : LoadSettings)
    (registryStep : ServiceState → Bool × ServiceState) (env : LocalEnv)
    (dbInitOk : Bool) :
    (lifespan_startup mlflowAvailable clientInitOk stg registryStep env
      dbInitOk).isOk = dbInitOk := by
  cases dbInitOk <;> rfl

/-- retraining.py, ModelRetrainingService configuration, with the module
    defaults used by the global service instance. -/
structure RetrainConfig where
  retrain_threshold : ℚ
  min_samples : ℕ
  performance_threshold : ℚ

/-- The configuration of the global retraining_service instance. -/
def defaultRetrainConfig : RetrainConfig :=
  { retrain_threshold := 1/10, min_samples := 100, performance_threshold := 8/10 }

/-- retraining.py, ModelRetrainingService._get_recent_accuracy: stubbed to
    0.95. -/
def get_recent_accuracy : ℚ := 95/100

/-- retraining.py, ModelRetrainingService._check_data_drift: stubbed to
    0.05. -/
def check_data_drift : ℚ := 5/100

/-- retraining.py, ModelRetrainingService._get_last_training_time: read the
    sidecar file artifacts/training_timestamp.txt as an ISO timestamp; an
    absent file, or any read or parse failure (swallowed by the bare
    except), yields None. Timestamps are modelled as POSIX seconds. -/
def get_last_training_time (f : FileState ℤ) : Option ℤ :=
  match f with
  | .valid t => some t
  | .absent => none
  | .corrupt => none

/-- The days field of a Python timedelta built from a difference in
    seconds: floor division by 86400. -/
def timedelta_days (seconds : ℤ) : ℤ := Int.fdiv seconds 86400

/-- retraining.py, ModelRetrainingService.check_retraining_needed, body of
    the try block: accuracy below the performance threshold triggers; then
    a drift score above the drift threshold triggers; then a last training
    time more than 30 days before now triggers; otherwise no retraining.
    Each await point may raise, modelled by Except arguments; a raised
    exception propagates out of the body. -/
def check_retraining_core (cfg : RetrainConfig) (acc drift : Except String ℚ)
    (last : Except String (Option ℤ)) (now : ℤ) : Except String Bool :=
  match acc with
  | .error e => .error e
  | .ok a =>
      if a < cfg.performance_threshold then .ok true
      else
        match drift with
        | .error e => .error e
        | .ok d =>
            if cfg.retrain_threshold < d then .ok true
            else
              match last with
              | .error e => .error e
              | .ok (some t) => .ok (decide (30 < timedelta_days (now - t)))
              | .ok none => .ok false

/-- retraining.py, ModelRetrainingService.check_retraining_needed: the try
    body, with the top-level except handler returning False on any
    exception. -/
def check_retraining_needed (cfg : RetrainConfig) (acc drift : Except String ℚ)
    (last : Except String (Option ℤ)) (now : ℤ) : Bool :=
  match check_retraining_core cfg acc drift last now with
  | .ok b => b
  | .error _ => false

/-- Counterexample to claim C3 as stated: with the stubs in place and the
    timestamp file absent, check_retraining_needed returns false, while the
    claim requires true for an absent file (the code can only time-trigger
    off a present, parseable timestamp). -/
theorem C3_counterexample :
    check_retraining_needed defaultRetrainConfig (.ok get_recent_accuracy)
      (.ok check_data_drift) (.ok (get_last_training_time .absent)) 0 = false := by
  norm_num [check_retraining_needed, check_retraining_core, get_recent_accuracy,
    check_data_drift, get_last_training_time, defaultRetrainConfig]

/-- Claim C3 amended: with the recent-accuracy check stubbed to 0.95 and
    the drift check stubbed to 0.05 against thresholds 0.8 and 0.1,
    check_retraining_needed returns true if and only if the timestamp file
    is present with a parseable time more than 30 days before now; in every
    other case, including an absent or unparseable file, it returns
    false. -/
theorem C3_time_trigger_iff (now : ℤ) (f : FileState ℤ) :
    check_retraining_needed defaultRetrainConfig (.ok get_recent_accuracy)
      (.ok check_data_drift) (.ok (get_last_training_time f)) now = true
    ↔ ∃ t, f = .valid t ∧ 30 < timedelta_days (now - t) := by
  have hacc : ¬ get_recent_accuracy < defaultRetrainConfig.performance_threshold := by
    norm_num [get_recent_accuracy, defaultRetrainConfig]
  have hdr : ¬ defaultRetrainConfig.retrain_threshold < check_data_drift := by
    norm_num [check_data_drift, defaultRetrainConfig]
  cases f with
  | absent =>
      simp [check_retraining_needed, check_retraining_core,
        get_last_training_time, hacc, hdr]
  | corrupt =>
      simp [check_retraining_needed, check_retraining_core,
        get_last_training_time, hacc, hdr]
  | valid t =>
      simp [check_retraining_needed, check_retraining_core,
        get_last_training_time, hacc, hdr]

/-- Witness for the amended C3: a timestamp 31 days in the past triggers. -/
theorem C3_witness :
    check_retraining_needed defaultRetrainConfig (.ok get_recent_accuracy)
      (.ok check_data_drift) (.ok (get_last_training_time (.valid 0)))
      (86400 * 31) = true :=
  (C3_time_trigger_iff (86400 * 31) (.valid 0)).mpr
    ⟨0, rfl, by decide⟩

/-- Claim C10: check_retraining_needed is total at its interface — it
    returns a boolean to its caller for every state of the checks and the
    timestamp file, and an exception raised by whichever check is actually
    executed makes it return false (the erroring check silently reports
    that no retraining is needed). -/
theorem C10_check_total :
    (∀ (cfg : RetrainConfig) (e : String) (drift : Except String ℚ)
        (last : Except String (Option ℤ)) (now : ℤ),
      check_retraining_needed cfg (.error e) drift last now = false) ∧
    (∀ (cfg : RetrainConfig) (a : ℚ) (e : String)
        (last : Except String (Option ℤ)) (now : ℤ),
      ¬ a < cfg.performance_threshold →
      check_retraining_needed cfg (.ok a) (.error e) last now = false) ∧
    (∀ (cfg : RetrainConfig) (a d : ℚ) (e : String) (now : ℤ),
      ¬ a < cfg.performance_threshold → ¬ cfg.retrain_threshold < d →
      check_retraining_needed cfg (.ok a) (.ok d) (.error e) now = false) := by
  refine ⟨?_, ?_, ?_⟩
  · intro cfg e drift last now
    rfl
  · intro cfg a e last now ha
    simp [check_retraining_needed, check_retraining_core, ha]
  · intro cfg a d e now ha hd
    simp [check_retraining_needed, check_retraining_core, ha, hd]

/-- Witness for C10: with the stub values and an exception in the
    timestamp read, the check reports false. -/
theorem C10_witness :
    check_retraining_needed defaultRetrainConfig (.ok (95/100)) (.ok (5/100))
      (.error "oserror") 0 = false :=
  C10_check_total.2.2 defaultRetrainConfig (95/100) (5/100) "oserror" 0
    (by norm_num [defaultRetrainConfig]) (by norm_num [defaultRetrainConfig])
